import Mathlib

/-!
# Verification of `cmsplugin_blog/models.py`

A shallow embedding of the Django models module of the `cmsplugin-blog`
repository, together with theorems settling the specification claims.

Modelling conventions:
* Python `datetime.date` becomes `PyDate` (year/month/day) with
  `toordinal` implementing the proleptic Gregorian ordinal exactly as
  CPython's `datetime.date.toordinal` does; `date - date` is the
  difference of ordinals (the `.days` of the resulting timedelta).
* Python `datetime.datetime` becomes `PyDateTime` (a date plus the
  second of the day); datetimes are ordered by `toSec`.
* In Python 2 a comparison between a `datetime.datetime` and a
  `datetime.date` raises `TypeError`; fallible computations return
  `Except String α`, the error carrying the exception name.
* Django settings become a structure of `Option` fields; `getattr`
  with a default becomes `Option.getD`.
* A Django queryset is a list of rows; `filter` keeps the rows that
  satisfy all keyword conditions.
-/

/-- Python `datetime.date`: a proleptic Gregorian calendar date. -/
structure PyDate where
  year : Nat
  month : Nat
  day : Nat
  deriving DecidableEq, Repr

/-- Days in the years before year `y` (CPython `_days_before_year`). -/
def daysBeforeYear (y : Nat) : Nat :=
  365 * (y - 1) + (y - 1) / 4 - (y - 1) / 100 + (y - 1) / 400

/-- Leap-year test of the Gregorian calendar (CPython `_is_leap`). -/
def isLeap (y : Nat) : Bool :=
  y % 4 == 0 && (y % 100 != 0 || y % 400 == 0)

/-- Days in the months of a common year before month `m`
(CPython `_days_before_month` without the leap correction). -/
def daysBeforeMonthCommon (m : Nat) : Nat :=
  match m with
  | 1 => 0 | 2 => 31 | 3 => 59 | 4 => 90 | 5 => 120 | 6 => 151
  | 7 => 181 | 8 => 212 | 9 => 243 | 10 => 273 | 11 => 304 | _ => 334

/-- CPython `datetime.date.toordinal`: day 1 is January 1 of year 1. -/
def PyDate.toordinal (d : PyDate) : Nat :=
  daysBeforeYear d.year
    + daysBeforeMonthCommon d.month
    + (if d.month > 2 && isLeap d.year then 1 else 0)
    + d.day

/-- `a - b` for dates: the `.days` of the Python timedelta. -/
def PyDate.subDays (a b : PyDate) : Int :=
  (a.toordinal : Int) - (b.toordinal : Int)

/-- Python `datetime.datetime`: a date plus the second of the day. -/
structure PyDateTime where
  date : PyDate
  secondOfDay : Nat
  deriving DecidableEq, Repr

/-- Total key for ordering datetimes (seconds since the epoch of the
proleptic ordinal). -/
def PyDateTime.toSec (t : PyDateTime) : Int :=
  (t.date.toordinal : Int) * 86400 + (t.secondOfDay : Int)

/-- `datetime <= datetime` comparison. -/
def PyDateTime.le (a b : PyDateTime) : Bool :=
  a.toSec ≤ b.toSec

/-- In Python 2, comparing a `datetime.datetime` with a plain
`datetime.date` raises `TypeError: can't compare datetime.datetime to
datetime.date`; the comparison never yields a boolean. -/
def pyDatetimeLtDate (_dt : PyDateTime) (_d : PyDate) : Except String Bool :=
  .error "TypeError: cannot compare datetime.datetime to datetime.date"

/-- The Django settings fields this module reads. `none` means the
setting is absent from the settings module. -/
structure DjangoSettings where
  middleware_classes : List String := []
  cmsplugin_blog_mod_close_after : Option Nat := none
  cmsplugin_blog_moderate : Option Bool := none
  cmsplugin_blog_spam_filter : Option Bool := none
  cmsplugin_blog_comment_notifications : Option Bool := none
  cmsplugin_blog_email_type : Option String := none
  cmsplugin_blog_email_from : Option String := none
  typepad_antispam_api_key : Option String := none
  akismet_api_key : Option String := none
  site_domain : String := "example.com"
  deriving Repr

/-- `getattr(settings, 'CMSPLUGIN_BLOG_MOD_CLOSE_AFTER', 7)`. -/
def modCloseAfter (s : DjangoSettings) : Nat :=
  s.cmsplugin_blog_mod_close_after.getD 7

/-- A row of the `Entry` model: publication flag and timestamp
(placeholders and tags carry no logic used by the claims). -/
structure EntryRec where
  id : Nat
  is_published : Bool
  pub_date : PyDateTime
  tags : String := ""
  deriving DecidableEq, Repr

/-- `PublishedEntriesQueryset.published`: filter on
`is_published=True, pub_date__lte=datetime.datetime.now()`. -/
def PublishedEntriesQueryset.published (qs : List EntryRec)
    (now : PyDateTime) : List EntryRec :=
  qs.filter (fun e => e.is_published && e.pub_date.le now)

/-- `EntriesManager.get_query_set`: a queryset over every row of the
model's table. -/
def EntriesManager.get_query_set (table : List EntryRec) : List EntryRec :=
  table

/-- `PublishedEntriesManager.get_query_set`: the base manager's
queryset with `published()` applied. -/
def PublishedEntriesManager.get_query_set (table : List EntryRec)
    (now : PyDateTime) : List EntryRec :=
  PublishedEntriesQueryset.published (EntriesManager.get_query_set table) now

/-- A row of the `EntryTitle` model (concrete subclass of
`AbstractEntryTitle`): per-language title, slug, author and the two
comment flags, with a foreign key to its `Entry`. -/
structure EntryTitleRec where
  id : Nat
  entry_id : Nat
  language : String
  title : String
  slug : String
  author : Option Nat := none
  comments_active : Bool := true
  comments_enabled : Bool := true
  deriving DecidableEq, Repr

/-- The middleware class name tested by `_get_absolute_url`. -/
def multilingualMiddleware : String :=
  "cmsplugin_blog.middleware.MultilingualBlogEntriesMiddleware"

/-- The `X in settings.MIDDLEWARE_CLASSES and '%s:' % self.language or ''`
idiom: when the middleware is listed the namespace prefix is
`language ++ ":"` (a nonempty, hence truthy, string), otherwise `''`. -/
def language_namespace (s : DjangoSettings) (language : String) : String :=
  if multilingualMiddleware ∈ s.middleware_classes then language ++ ":" else ""

/-- Left-pad a decimal string with zeros to width `w`. -/
def zfill (w : Nat) (str : String) : String :=
  (List.replicate (w - str.length) '0').asString ++ str

/-- `strftime('%Y')` of a date (four digits for the years Python 2's
`strftime` accepts, which start at 1900). -/
def strftimeY (d : PyDate) : String := zfill 4 (toString d.year)

/-- `strftime('%m')`: zero-padded month. -/
def strftimeM (d : PyDate) : String := zfill 2 (toString d.month)

/-- `strftime('%d')`: zero-padded day of month. -/
def strftimeD (d : PyDate) : String := zfill 2 (toString d.day)

/-- The reversible URL description `_get_absolute_url` returns: a view
name and the keyword arguments `year`, `month`, `day`, `slug`. -/
structure UrlPattern where
  viewname : String
  year : String
  month : String
  day : String
  slug : String
  deriving DecidableEq, Repr

/-- `AbstractEntryTitle._get_absolute_url`: the per-language
`blog_detail` route with year/month/day taken from the owning entry's
`pub_date` and the title's slug. `entry` is the row the title's
foreign key points at. -/
def AbstractEntryTitle.get_absolute_url_tuple (s : DjangoSettings)
    (et : EntryTitleRec) (entry : EntryRec) : UrlPattern :=
  { viewname := language_namespace s et.language ++ "blog_detail"
  , year := strftimeY entry.pub_date.date
  , month := strftimeM entry.pub_date.date
  , day := strftimeD entry.pub_date.date
  , slug := et.slug }

/-- `models.permalink(_get_absolute_url)`: the framework's `reverse`
applied to the tuple. `reverse` is the urlconf, a parameter here. -/
def AbstractEntryTitle.get_absolute_url (reverse : UrlPattern → String)
    (s : DjangoSettings) (et : EntryTitleRec) (entry : EntryRec) : String :=
  reverse (AbstractEntryTitle.get_absolute_url_tuple s et entry)

/-- `AbstractEntryTitle._pub_date` (the `pub_date` property): the
owning entry's `pub_date`. -/
def AbstractEntryTitle.pub_date (entry : EntryRec) : PyDateTime :=
  entry.pub_date

/-- `close_comments_date()`: today's date. -/
def close_comments_date (today : PyDate) : PyDate := today

/-- `moderate_comments_date()`: today minus
`CMSPLUGIN_BLOG_MOD_CLOSE_AFTER` days (default 7), as an ordinal. -/
def moderate_comments_date (s : DjangoSettings) (today : PyDate) : Int :=
  (today.toordinal : Int) - (modCloseAfter s : Int)

/-- `AbstractEntryTitle.close_days`: the date part of the entry's
`pub_date` minus today, in days. -/
def AbstractEntryTitle.close_days (et_entry : EntryRec) (today : PyDate) : Int :=
  let pub_date : PyDate :=
    ⟨et_entry.pub_date.date.year, et_entry.pub_date.date.month,
      et_entry.pub_date.date.day⟩
  pub_date.subDays today

/-- `AbstractEntryTitle.comments_closed`, line for line.  The guard
`self.pub_date < datetime.date.today()` compares the entry's
`datetime.datetime` with a `datetime.date`, which Python 2 rejects
with `TypeError`, so for a title with `comments_enabled` the method
always raises before `close_days` is reached. -/
def AbstractEntryTitle.comments_closed (s : DjangoSettings) (today : PyDate)
    (et : EntryTitleRec) (et_entry : EntryRec) : Except String Bool :=
  if !et.comments_enabled then .ok true
  else do
    let lt ← pyDatetimeLtDate (AbstractEntryTitle.pub_date et_entry) today
    if lt then .ok true
    else if AbstractEntryTitle.close_days et_entry today ≥ (modCloseAfter s : Int)
      then .ok true
      else .ok false

/-- `AbstractEntryTitle.comments_disabled`: true iff `comments_active`
is off. -/
def AbstractEntryTitle.comments_disabled (et : EntryTitleRec) : Bool :=
  !et.comments_active

/-- `AbstractEntryTitle.moderate_days` (marked "not needed for now" in
the source): same computation as `close_days`. -/
def AbstractEntryTitle.moderate_days (et_entry : EntryRec) (today : PyDate) : Int :=
  AbstractEntryTitle.close_days et_entry today

/-- `AbstractEntryTitle.comments_under_moderation`: reads only
`getattr(settings, 'CMSPLUGIN_BLOG_MODERATE', True)`. -/
def AbstractEntryTitle.comments_under_moderation (s : DjangoSettings) : Bool :=
  s.cmsplugin_blog_moderate.getD true

/-- `Entry.Meta.ordering`. -/
def Entry.meta_ordering : List String := ["-pub_date"]

/-- The `-pub_date` comparison: `a` precedes `b` when `a.pub_date` is
at least `b.pub_date`. -/
def entryDescRel (a b : EntryRec) : Prop :=
  b.pub_date.toSec ≤ a.pub_date.toSec

instance : DecidableRel entryDescRel := fun a b =>
  inferInstanceAs (Decidable (b.pub_date.toSec ≤ a.pub_date.toSec))

instance : IsTotal EntryRec entryDescRel :=
  ⟨fun a b => le_total b.pub_date.toSec a.pub_date.toSec⟩

instance : IsTrans EntryRec entryDescRel :=
  ⟨fun _ _ _ h1 h2 => le_trans h2 h1⟩

/-- The host ORM evaluates an `Entry` queryset with the model's default
`Meta.ordering = ('-pub_date',)`: rows come out sorted by `pub_date`
descending (stable sort). -/
def applyEntryOrdering (l : List EntryRec) : List EntryRec :=
  l.insertionSort entryDescRel

/-- Python string slice `s[a:b]` for `0 ≤ a ≤ b` (indices clamp). -/
def pySlice (str : String) (a b : Nat) : String :=
  ((str.toList.drop a).take (b - a)).asString

/-- Python string slice `s[a:]` for `0 ≤ a` (index clamps). -/
def pySliceFrom (str : String) (a : Nat) : String :=
  (str.toList.drop a).asString

/-- `Entry.get_absolute_url`: looks up this entry's title in the given
language (`get_language()` — passed in — when the argument is `None`
or empty), resolves its URL, strips a leading `/<language>` produced by
the multilingual url patterns, and returns `''` when
`EntryTitle.DoesNotExist` is raised by the lookup.
`entrytitle_set` is the list of `EntryTitle` rows of this entry;
`.get(language=...)` raises `MultipleObjectsReturned` (uncaught) when
several match. -/
def Entry.get_absolute_url (reverse : UrlPattern → String)
    (s : DjangoSettings) (get_language : String)
    (entrytitle_set : List EntryTitleRec) (entry : EntryRec)
    (language : Option String) : Except String String :=
  let lang := match language with
    | none => get_language
    | some l => if l == "" then get_language else l
  match entrytitle_set.filter (fun t => t.language == lang) with
  | [] => .ok ""
  | [t] =>
    let url := AbstractEntryTitle.get_absolute_url reverse s t entry
    let url := if pySlice url 1 (lang.length + 1) == lang
      then pySliceFrom url (lang.length + 1) else url
    .ok url
  | _ => .error "MultipleObjectsReturned"

/-- `AbstractEntryTitle.Meta.unique_together = ('language', 'slug')`. -/
def AbstractEntryTitle.unique_together : List String := ["language", "slug"]

/-- The pair of columns the declared `unique_together` constrains. -/
def EntryTitleRec.uniqueKey (t : EntryTitleRec) : String × String :=
  (t.language, t.slug)

/-- The database invariant induced by `Meta.unique_together`: no two
rows share a (language, slug) pair. -/
def uniqueLangSlug (db : List EntryTitleRec) : Prop :=
  db.Pairwise (fun a b => a.uniqueKey ≠ b.uniqueKey)

/-- The host ORM's INSERT under the declared
`unique_together = ('language', 'slug')`: the database refuses a row
whose (language, slug) pair is already present. -/
def insertEntryTitle (db : List EntryTitleRec) (t : EntryTitleRec) :
    Except String (List EntryTitleRec) :=
  if db.any (fun u => u.uniqueKey == t.uniqueKey) then
    .error "IntegrityError: columns language, slug are not unique"
  else .ok (t :: db)

/-- The host ORM's UPDATE of the row with `t.id` to the values of `t`,
refused when a different row already holds the new (language, slug)
pair. -/
def updateEntryTitle (db : List EntryTitleRec) (t : EntryTitleRec) :
    Except String (List EntryTitleRec) :=
  if (db.filter (fun u => u.id != t.id)).any
      (fun u => u.uniqueKey == t.uniqueKey) then
    .error "IntegrityError: columns language, slug are not unique"
  else .ok (db.map (fun u => if u.id == t.id then t else u))

/-- A flag row created through `comment.flags.create(...)`. -/
structure CommentFlagRec where
  user : Option Nat
  flag : String
  deriving DecidableEq, Repr

/-- A threaded comment as the signal handlers see it: poster details,
the body, the parent poster's email (threaded reply target, `none` when
the comment has no parent), the visibility flag and the created flags. -/
structure CommentRec where
  user_name : String := ""
  user_url : String := ""
  comment : String := ""
  email : String := ""
  submit_date : PyDateTime := ⟨⟨1970, 1, 1⟩, 0⟩
  parent_email : Option String := none
  is_public : Bool := true
  flags : List CommentFlagRec := []
  deriving DecidableEq, Repr

/-- The request metadata the spam handler reads from `request.META`. -/
structure RequestRec where
  remote_addr : Option String := none
  http_user_agent : Option String := none
  http_referer : Option String := none
  deriving Repr

/-- `LatestEntriesPlugin`: plugin configuration record. -/
structure LatestEntriesPluginRec where
  limit : Nat
  current_language_only : Bool
  deriving DecidableEq, Repr

/-- `EntryModerator.enable_field`. -/
def EntryModerator.enable_field : String := "comments_enabled"

/-- `EntryModerator.auto_close_field`. -/
def EntryModerator.auto_close_field : String := "pub_date"

/-- `EntryModerator.close_after`. -/
def EntryModerator.close_after (s : DjangoSettings) : Nat := modCloseAfter s

/-- `EntryModerator.moderate`: returns `True` for every comment. -/
def EntryModerator.moderate (_comment : CommentRec)
    (_content_object : EntryTitleRec) (_request : RequestRec) : Bool :=
  true

/-- The claim's reading of C6, following the spec's words: comments are
under moderation exactly once today lies beyond the window of
`CMSPLUGIN_BLOG_MOD_CLOSE_AFTER` days after the entry's publication
date. -/
def spec_comments_under_moderation (s : DjangoSettings)
    (today pub : PyDate) : Bool :=
  (today.toordinal : Int) > (pub.toordinal : Int) + (modCloseAfter s : Int)

/-- A module-level guard: the spam handler is connected to
`comment_was_posted` only when `CMSPLUGIN_BLOG_SPAM_FILTER` is set. -/
def spam_filter_connected (s : DjangoSettings) : Bool :=
  s.cmsplugin_blog_spam_filter.getD false

/-- A module-level guard: the notification handler is connected only
when `CMSPLUGIN_BLOG_COMMENT_NOTIFICATIONS` is set. -/
def comment_notifications_connected (s : DjangoSettings) : Bool :=
  s.cmsplugin_blog_comment_notifications.getD false

/-- A module-level guard: `EntryModerator` is registered only when
`CMSPLUGIN_BLOG_MODERATE` is set (default `False` here). -/
def moderator_registered (s : DjangoSettings) : Bool :=
  s.cmsplugin_blog_moderate.getD false

/-- The data dict the spam handler posts to `comment_check`. -/
structure SpamData where
  user_ip : String
  user_agent : String
  referrer : String
  comment_type : String
  comment_author : String
  deriving DecidableEq, Repr

/-- The `Akismet(...)` client the handler builds: API key, blog URL and
service base URL. -/
structure AkismetClient where
  key : String
  blog_url : String
  baseurl : String
  deriving DecidableEq, Repr

/-- The external spam service's observable behaviour: whether the
`akismet` package imports, how `verify_key` answers for a client, and
how `comment_check` classifies a submission. -/
structure AkismetService where
  importable : Bool
  verify_key : AkismetClient → Bool
  comment_check : AkismetClient → String → SpamData → Bool

/-- Client construction in `on_comment_was_posted_spamcheck`: the
TypePad key (with the TypePad base URL) when
`settings.TYPEPAD_ANTISPAM_API_KEY` exists, otherwise
`settings.AKISMET_API_KEY` — an `AttributeError` when that is absent
too. The blog URL is built from the current site's domain. -/
def akismetClientFor (s : DjangoSettings) : Except String AkismetClient :=
  match s.typepad_antispam_api_key with
  | some k =>
      .ok { key := k, blog_url := "http://" ++ s.site_domain ++ "/",
            baseurl := "api.antispam.typepad.com/1.1/" }
  | none =>
      match s.akismet_api_key with
      | some k =>
          .ok { key := k, blog_url := "http://" ++ s.site_domain ++ "/",
                baseurl := "rest.akismet.com/1.1/" }
      | none => .error "AttributeError: settings has no attribute AKISMET_API_KEY"

/-- `on_comment_was_posted_spamcheck`: returns silently when `akismet`
does not import; otherwise asks the service to verify the key and, when
it verifies and `comment_check` classifies the comment as spam, creates
a `'spam'` flag attributed to the content object's author, clears
`is_public` and saves the comment. The result pairs the comment as the
handler leaves it with whether `comment.save()` ran. -/
def on_comment_was_posted_spamcheck (svc : AkismetService)
    (s : DjangoSettings) (comment : CommentRec) (request : RequestRec)
    (content_object : EntryTitleRec) : Except String (CommentRec × Bool) :=
  if !svc.importable then .ok (comment, false)
  else
    match akismetClientFor s with
    | .error e => .error e
    | .ok ak =>
      if svc.verify_key ak then
        let data : SpamData :=
          { user_ip := request.remote_addr.getD "127.0.0.1"
          , user_agent := request.http_user_agent.getD ""
          , referrer := request.http_referer.getD ""
          , comment_type := "comment"
          , comment_author := comment.user_name }
        if svc.comment_check ak comment.comment data then
          .ok ({ comment with
                  is_public := false
                , flags := comment.flags ++ [⟨content_object.author, "spam"⟩] },
               true)
        else .ok (comment, false)
      else .ok (comment, false)

/-- An outbound email as `send_mail` would receive it. -/
structure MailRec where
  subject : String
  body : String
  from_email : String
  recipient_list : List String
  deriving DecidableEq, Repr

/-- The one-argument lambda `r`: renders the named `BlockNode` of the
`email_replied` template (`KeyError` when no block has that name).
`blocks` maps block names to their text rendered against the comment's
context. -/
def renderBlock (blocks : List (String × String)) (n : String) :
    Except String String :=
  match blocks.lookup n with
  | some v => .ok v
  | none => .error "KeyError"

/-- `on_comment_was_posted_notification`. The recipient list is the
single email of the comment's parent (`AttributeError` when the comment
has no parent). The source's `send_mail(...)` line has unbalanced
parentheses — importing the module raises `SyntaxError` — and under
the closest parse (closing the call at the end of its line) the
one-argument renderer `r` is applied to three arguments
(`r(EMAIL_TYPE, EMAIL_FROM, [address])`), raising `TypeError` after the
subject block is rendered; no mail is ever sent. -/
def on_comment_was_posted_notification (s : DjangoSettings)
    (blocks : List (String × String)) (comment : CommentRec) :
    Except String (List MailRec) := do
  let parent_email ←
    match comment.parent_email with
    | some e => Except.ok e
    | none => Except.error "AttributeError: NoneType has no attribute email"
  let to_list := [parent_email]
  let mails ← to_list.foldlM
    (fun (_acc : List MailRec) _address => do
      let _subject ← renderBlock blocks "subject"
      Except.error "TypeError: lambda takes exactly 1 argument, 3 given")
    []
  Except.ok mails

/-- C1: membership in the published manager's queryset. -/
theorem published_mem_iff (table : List EntryRec) (now : PyDateTime)
    (e : EntryRec) :
    e ∈ PublishedEntriesManager.get_query_set table now ↔
      e ∈ table ∧ e.is_published = true ∧ e.pub_date.toSec ≤ now.toSec := by
  simp [PublishedEntriesManager.get_query_set, EntriesManager.get_query_set,
    PublishedEntriesQueryset.published, List.mem_filter, PyDateTime.le,
    and_assoc]

/-- C2: for a title with comments enabled, published 2010-01-05 noon,
evaluated on 2010-01-06 — one day into the claimed seven-day window,
where the claim requires `comments_closed` to return `False` — the
method instead raises `TypeError`, because it compares the entry's
`datetime.datetime` publication timestamp with `datetime.date.today()`. -/
theorem comments_closed_typeerror_C2 :
    AbstractEntryTitle.comments_closed {} ⟨2010, 1, 6⟩
      ⟨1, 1, "en", "Title", "title", none, true, true⟩
      ⟨1, true, ⟨⟨2010, 1, 5⟩, 43200⟩, ""⟩ =
      .error "TypeError: cannot compare datetime.datetime to datetime.date" :=
  rfl

/-- C4: the absolute-URL tuple is the (optionally language-namespaced)
`blog_detail` route built from the owning entry's publication year,
month and day and the title's slug; and it is a pure function of the
middleware flag, the title's language and slug, and the entry's
`pub_date` — equal inputs on those fields give equal URLs. -/
theorem entrytitle_absolute_url_C4 (s₁ s₂ : DjangoSettings)
    (et₁ et₂ : EntryTitleRec) (e₁ e₂ : EntryRec) :
    (AbstractEntryTitle.get_absolute_url_tuple s₁ et₁ e₁ =
      { viewname :=
          (if multilingualMiddleware ∈ s₁.middleware_classes
            then et₁.language ++ ":" else "") ++ "blog_detail"
      , year := strftimeY e₁.pub_date.date
      , month := strftimeM e₁.pub_date.date
      , day := strftimeD e₁.pub_date.date
      , slug := et₁.slug }) ∧
    ((multilingualMiddleware ∈ s₁.middleware_classes ↔
        multilingualMiddleware ∈ s₂.middleware_classes) →
      et₁.language = et₂.language → et₁.slug = et₂.slug →
      e₁.pub_date = e₂.pub_date →
      AbstractEntryTitle.get_absolute_url_tuple s₁ et₁ e₁ =
        AbstractEntryTitle.get_absolute_url_tuple s₂ et₂ e₂) := by
  constructor
  · rfl
  · intro hmw hl hs hp
    simp [AbstractEntryTitle.get_absolute_url_tuple, language_namespace,
      hmw, hl, hs, hp]

/-- C4 witness: two states agreeing on language, slug, publication date
and middleware flag yield the same URL tuple. -/
theorem entrytitle_absolute_url_C4_witness :
    AbstractEntryTitle.get_absolute_url_tuple {}
        ⟨1, 1, "en", "Title A", "hello", none, true, true⟩
        ⟨1, true, ⟨⟨2010, 1, 5⟩, 0⟩, ""⟩ =
      AbstractEntryTitle.get_absolute_url_tuple {}
        ⟨2, 1, "en", "Title B", "hello", some 9, false, false⟩
        ⟨2, false, ⟨⟨2010, 1, 5⟩, 0⟩, "tagged"⟩ :=
  (entrytitle_absolute_url_C4 {} {}
      ⟨1, 1, "en", "Title A", "hello", none, true, true⟩
      ⟨2, 1, "en", "Title B", "hello", some 9, false, false⟩
      ⟨1, true, ⟨⟨2010, 1, 5⟩, 0⟩, ""⟩
      ⟨2, false, ⟨⟨2010, 1, 5⟩, 0⟩, "tagged"⟩).2 Iff.rfl rfl rfl rfl

/-- C6 counterexample: with default settings, on the very day of
publication — inside the window, where the claim says comments are
accepted without review — `comments_under_moderation` nonetheless
reports moderation, because it only reads the `CMSPLUGIN_BLOG_MODERATE`
flag. -/
theorem comments_under_moderation_counterexample_C6 :
    AbstractEntryTitle.comments_under_moderation {} = true ∧
    spec_comments_under_moderation {} ⟨2010, 1, 5⟩ ⟨2010, 1, 5⟩ = false :=
  ⟨rfl, by decide⟩

/-- The ORM's `('-pub_date',)` ordering yields a list that is pairwise
descending in `pub_date`. -/
theorem applyEntryOrdering_pairwise (l : List EntryRec) :
    (applyEntryOrdering l).Pairwise entryDescRel :=
  List.sorted_insertionSort entryDescRel l

/-- An ordered queryset is descending at every pair of positions. -/
theorem applyEntryOrdering_get_le (l : List EntryRec)
    (i j : Fin (applyEntryOrdering l).length) (hij : i ≤ j) :
    ((applyEntryOrdering l).get j).pub_date.toSec ≤
      ((applyEntryOrdering l).get i).pub_date.toSec := by
  rcases lt_or_eq_of_le hij with h | h
  · exact List.pairwise_iff_get.mp (applyEntryOrdering_pairwise l) i j h
  · rw [h]

/-- C9: evaluated with the default `('-pub_date',)` ordering, both the
plain manager's queryset and the published manager's queryset come out
in descending `pub_date` order: an earlier-positioned entry has a
`pub_date` at least that of any later-positioned one. -/
theorem entry_ordering_C9 (table : List EntryRec) (now : PyDateTime) :
    (∀ (i j : Fin (applyEntryOrdering (EntriesManager.get_query_set table)).length),
      i ≤ j →
      ((applyEntryOrdering (EntriesManager.get_query_set table)).get j).pub_date.toSec ≤
        ((applyEntryOrdering (EntriesManager.get_query_set table)).get i).pub_date.toSec) ∧
    (∀ (i j : Fin (applyEntryOrdering
        (PublishedEntriesManager.get_query_set table now)).length),
      i ≤ j →
      ((applyEntryOrdering (PublishedEntriesManager.get_query_set table now)).get j).pub_date.toSec ≤
        ((applyEntryOrdering (PublishedEntriesManager.get_query_set table now)).get i).pub_date.toSec) :=
  ⟨fun i j hij => applyEntryOrdering_get_le _ i j hij,
   fun i j hij => applyEntryOrdering_get_le _ i j hij⟩

/-- C9 witness: a two-entry table ordered by the plain manager. -/
theorem entry_ordering_C9_witness :
    ((applyEntryOrdering (EntriesManager.get_query_set
        [⟨1, true, ⟨⟨2010, 1, 5⟩, 0⟩, ""⟩,
         ⟨2, true, ⟨⟨2010, 1, 7⟩, 0⟩, ""⟩])).get ⟨1, by decide⟩).pub_date.toSec ≤
      ((applyEntryOrdering (EntriesManager.get_query_set
        [⟨1, true, ⟨⟨2010, 1, 5⟩, 0⟩, ""⟩,
         ⟨2, true, ⟨⟨2010, 1, 7⟩, 0⟩, ""⟩])).get ⟨0, by decide⟩).pub_date.toSec :=
  (entry_ordering_C9
    [⟨1, true, ⟨⟨2010, 1, 5⟩, 0⟩, ""⟩, ⟨2, true, ⟨⟨2010, 1, 7⟩, 0⟩, ""⟩]
    ⟨⟨2010, 1, 8⟩, 0⟩).1 ⟨0, by decide⟩ ⟨1, by decide⟩ (by decide)

/-- C8: when the entry has no title in the requested language,
`get_absolute_url` returns `''` (the `DoesNotExist` branch) rather than
raising; and a non-empty URL is returned only when a title in that
language exists. -/
theorem entry_get_absolute_url_C8 (reverse : UrlPattern → String)
    (s : DjangoSettings) (glang : String) (ts : List EntryTitleRec)
    (entry : EntryRec) (l : String) (hl : l ≠ "") :
    ((∀ t ∈ ts, t.language ≠ l) →
      Entry.get_absolute_url reverse s glang ts entry (some l) = .ok "") ∧
    (∀ u, Entry.get_absolute_url reverse s glang ts entry (some l) = .ok u →
      u ≠ "" → ∃ t ∈ ts, t.language = l) := by
  have hbeq : (l == "") = false := by simp [hl]
  constructor
  · intro h
    have hfil : ts.filter (fun t => t.language == l) = [] := by
      rw [List.filter_eq_nil_iff]
      intro t ht
      simp [h t ht]
    simp [Entry.get_absolute_url, hbeq, hfil]
  · intro u hu hne
    rcases hfil : ts.filter (fun t => t.language == l) with _ | ⟨t, _ | ⟨t2, rest⟩⟩
    · exfalso
      apply hne
      simp [Entry.get_absolute_url, hbeq, hfil] at hu
      exact hu.symm
    · have htm : t ∈ ts.filter (fun t => t.language == l) := by
        rw [hfil]; exact List.Mem.head _
      have hmem := List.mem_filter.mp htm
      exact ⟨t, hmem.1, by simpa using hmem.2⟩
    · exfalso
      simp [Entry.get_absolute_url, hbeq, hfil] at hu

/-- C8 witness: an entry with no French title resolves to `''`. -/
theorem entry_get_absolute_url_C8_witness :
    Entry.get_absolute_url (fun _ => "/2010/01/05/hello/") {} "en"
      [⟨1, 1, "en", "Title", "hello", none, true, true⟩]
      ⟨1, true, ⟨⟨2010, 1, 5⟩, 0⟩, ""⟩ (some "fr") = .ok "" :=
  (entry_get_absolute_url_C8 (fun _ => "/2010/01/05/hello/") {} "en"
      [⟨1, 1, "en", "Title", "hello", none, true, true⟩]
      ⟨1, true, ⟨⟨2010, 1, 5⟩, 0⟩, ""⟩ "fr" (by decide)).1 (by decide)

/-- C6 amended: `comments_under_moderation` returns the
`CMSPLUGIN_BLOG_MODERATE` setting (default `True`), reading nothing
else — no publication date, no window — and `EntryModerator.moderate`
marks every comment for moderation. -/
theorem comments_under_moderation_amended_C6 :
    (∀ s : DjangoSettings,
      AbstractEntryTitle.comments_under_moderation s =
        s.cmsplugin_blog_moderate.getD true) ∧
    (∀ (c : CommentRec) (co : EntryTitleRec) (rq : RequestRec),
      EntryModerator.moderate c co rq = true) :=
  ⟨fun _ => rfl, fun _ _ _ => rfl⟩

/-- C3: the declared `unique_together = ('language', 'slug')` makes the
(language, slug) pairs of any two distinct rows differ, and the
constraint-checked INSERT and UPDATE operations preserve the
invariant. -/
theorem entrytitle_unique_together_C3 (db db2 : List EntryTitleRec)
    (t : EntryTitleRec) (hk : uniqueLangSlug db)
    (hid : db.Pairwise (fun a b => a.id ≠ b.id)) :
    (insertEntryTitle db t = .ok db2 → uniqueLangSlug db2) ∧
    (updateEntryTitle db t = .ok db2 → uniqueLangSlug db2) := by
  have hk' : db.Pairwise (fun a b => a.uniqueKey ≠ b.uniqueKey) := hk
  constructor
  · intro h
    unfold insertEntryTitle at h
    split at h
    · exact absurd h (by simp)
    · rename_i hg
      have hall : ∀ u ∈ db, ¬ u.uniqueKey = t.uniqueKey := by
        simpa using hg
      injection h with h2
      subst h2
      show List.Pairwise _ (t :: db)
      exact List.Pairwise.cons
        (fun u hu he => hall u hu (by rw [← he])) hk'
  · intro h
    unfold updateEntryTitle at h
    split at h
    · exact absurd h (by simp)
    · rename_i hg
      have hall : ∀ u ∈ db, u.id ≠ t.id → ¬ u.uniqueKey = t.uniqueKey := by
        intro u hu hne
        simp only [List.any_eq_true, List.mem_filter, bne_iff_ne,
          beq_iff_eq, not_exists, not_and] at hg
        exact hg u ⟨hu, hne⟩
      injection h with h2
      subst h2
      show List.Pairwise _ (db.map _)
      rw [List.pairwise_map]
      refine List.Pairwise.imp_of_mem ?_ (hk'.and hid)
      intro a b ha hb hab
      obtain ⟨hkey, hident⟩ := hab
      by_cases hA : a.id = t.id
      · by_cases hB : b.id = t.id
        · exact absurd (hA.trans hB.symm) hident
        · have ea : (if a.id == t.id then t else a) = t := by simp [hA]
          have eb : (if b.id == t.id then t else b) = b := by simp [hB]
          rw [ea, eb]
          intro he
          exact hall b hb hB he.symm
      · by_cases hB : b.id = t.id
        · have ea : (if a.id == t.id then t else a) = a := by simp [hA]
          have eb : (if b.id == t.id then t else b) = t := by simp [hB]
          rw [ea, eb]
          exact hall a ha hA
        · have ea : (if a.id == t.id then t else a) = a := by simp [hA]
          have eb : (if b.id == t.id then t else b) = b := by simp [hB]
          rw [ea, eb]
          exact hkey

/-- C3 witness: inserting a second row with a fresh (language, slug)
pair keeps the table's pairs distinct. -/
theorem entrytitle_unique_together_C3_witness :
    uniqueLangSlug [⟨2, 1, "en", "B", "b", none, true, true⟩,
      ⟨1, 1, "en", "A", "a", none, true, true⟩] :=
  (entrytitle_unique_together_C3
      [⟨1, 1, "en", "A", "a", none, true, true⟩]
      [⟨2, 1, "en", "B", "b", none, true, true⟩,
        ⟨1, 1, "en", "A", "a", none, true, true⟩]
      ⟨2, 1, "en", "B", "b", none, true, true⟩
      (List.pairwise_singleton _ _) (List.pairwise_singleton _ _)).1 rfl

/-- C5: with the spam filter enabled and a configured key, the handler
follows the external service: when the key verifies and the service
classifies the comment as spam it creates a `'spam'` flag attributed to
the content object's author, clears `is_public` and saves the comment;
when the service says not-spam the comment is left unchanged and not
saved. -/
theorem spamcheck_C5 (svc : AkismetService) (s : DjangoSettings)
    (comment : CommentRec) (request : RequestRec) (co : EntryTitleRec)
    (hon : spam_filter_connected s = true)
    (himp : svc.importable = true)
    (hkey : s.typepad_antispam_api_key.isSome ∨ s.akismet_api_key.isSome)
    (hver : ∀ ak, svc.verify_key ak = true) :
    ((∀ ak text d, svc.comment_check ak text d = true) →
      on_comment_was_posted_spamcheck svc s comment request co =
        .ok ({ comment with
                is_public := false
              , flags := comment.flags ++ [⟨co.author, "spam"⟩] }, true)) ∧
    ((∀ ak text d, svc.comment_check ak text d = false) →
      on_comment_was_posted_spamcheck svc s comment request co =
        .ok (comment, false)) := by
  constructor <;> intro hchk <;>
  · cases htp : s.typepad_antispam_api_key with
    | some k =>
        simp [on_comment_was_posted_spamcheck, akismetClientFor, himp, htp,
          hver, hchk]
    | none =>
        cases hok : s.akismet_api_key with
        | some k =>
            simp [on_comment_was_posted_spamcheck, akismetClientFor, himp,
              htp, hok, hver, hchk]
        | none =>
            exfalso
            rcases hkey with h | h
            · rw [htp] at h; simp at h
            · rw [hok] at h; simp at h

/-- C5 witness: a spam-classified comment gets flagged, hidden and
saved. -/
theorem spamcheck_C5_witness :
    on_comment_was_posted_spamcheck
      ⟨true, fun _ => true, fun _ _ _ => true⟩
      { akismet_api_key := some "k", cmsplugin_blog_spam_filter := some true }
      { user_name := "spammer", comment := "buy pills" } {}
      ⟨1, 1, "en", "Title", "title", some 5, true, true⟩ =
      .ok ({ user_name := "spammer", comment := "buy pills",
             is_public := false, flags := [⟨some 5, "spam"⟩] }, true) :=
  (spamcheck_C5 ⟨true, fun _ => true, fun _ _ _ => true⟩
      { akismet_api_key := some "k", cmsplugin_blog_spam_filter := some true }
      { user_name := "spammer", comment := "buy pills" } {}
      ⟨1, 1, "en", "Title", "title", some 5, true, true⟩
      rfl rfl (Or.inr rfl) (fun _ => rfl)).1 (fun _ _ _ => rfl)

/-- C10: the spam handler is a no-op — returning `ok` with the comment
unchanged and unsaved — both when the `akismet` package does not import
and when the configured key fails verification. -/
theorem spamcheck_noop_C10 (svc : AkismetService) (s : DjangoSettings)
    (comment : CommentRec) (request : RequestRec) (co : EntryTitleRec) :
    (svc.importable = false →
      on_comment_was_posted_spamcheck svc s comment request co =
        .ok (comment, false)) ∧
    (svc.importable = true →
      (s.typepad_antispam_api_key.isSome ∨ s.akismet_api_key.isSome) →
      (∀ ak, svc.verify_key ak = false) →
      on_comment_was_posted_spamcheck svc s comment request co =
        .ok (comment, false)) := by
  constructor
  · intro h
    simp [on_comment_was_posted_spamcheck, h]
  · intro himp hkey hver
    cases htp : s.typepad_antispam_api_key with
    | some k =>
        simp [on_comment_was_posted_spamcheck, akismetClientFor, himp, htp,
          hver]
    | none =>
        cases hok : s.akismet_api_key with
        | some k =>
            simp [on_comment_was_posted_spamcheck, akismetClientFor, himp,
              htp, hok, hver]
        | none =>
            exfalso
            rcases hkey with h | h
            · rw [htp] at h; simp at h
            · rw [hok] at h; simp at h

/-- C10 witness: with `akismet` unavailable the handler leaves the
comment untouched. -/
theorem spamcheck_noop_C10_witness :
    on_comment_was_posted_spamcheck
      ⟨false, fun _ => false, fun _ _ _ => false⟩ {} {} {}
      ⟨1, 1, "en", "Title", "title", none, true, true⟩ =
      .ok ({}, false) :=
  (spamcheck_noop_C10 ⟨false, fun _ => false, fun _ _ _ => false⟩ {} {} {}
      ⟨1, 1, "en", "Title", "title", none, true, true⟩).1 rfl

/-- C7: evaluating the notification handler on a reply with a parent
and an `email_replied` template providing `subject` and `plain` blocks:
instead of one rendered email to the parent's address, the handler
raises (`SyntaxError` at import as written; `TypeError` from applying
the one-argument block renderer to three arguments under the closest
parse) and no mail is produced. -/
theorem notification_typeerror_C7 :
    on_comment_was_posted_notification {}
      [("subject", "Re: your comment"), ("plain", "You got a reply.")]
      { user_name := "alice", comment := "hello",
        parent_email := some "bob@example.com" } =
      .error "TypeError: lambda takes exactly 1 argument, 3 given" :=
  rfl
